import Mathlib

/-!
# Verification of the fetch-fallback-cache pipeline

Shallow embedding of the core of the news-aggregator service:
`src/utils/cache.js` (TTL cache with key derivation) and
`src/services/newsService.js` (provider fallback pipeline, mock synthesis,
search composition), together with the configuration constant from
`src/config/index.js`.

Modelling conventions:
* Timestamps (`Date.now()`) are milliseconds-since-epoch, modelled as `Int`.
  `new Date(t).toISOString()` is injective on millisecond timestamps, so a
  `publishedAt` field is represented by the timestamp itself.
* JavaScript impurity is made explicit: a call to the service receives the
  current time `now` and the stream of `Math.random()*259200000` draws `rands`
  as parameters; the mutable cache (`this.cache`) is threaded as explicit
  state; `Array.prototype.sort`, which sorts **in place**, is modelled by
  returning the post-call state of the argument array alongside the key
  (`Cache.generateKeyPost`).
* Network I/O is an environment: the HTTP call of each provider is a function from
  the query string it sends to either an error (network/HTTP failure, which
  the source catches at the pipeline level) or the article list obtained by
  the field-by-field mapping the source applies to the JSON response (an empty list when
  `response.data.articles` is missing, per the `return []` of the source).
-/

/-- `source: {name, url}` of an Article; NewsAPI maps `url` to `null`,
modelled as `none`. -/
structure NewsSource where
  name : String
  url : Option String
deriving DecidableEq, Repr

/-- The canonical article schema both providers are mapped into and the mock
generator produces (`src/services/newsService.js`). -/
structure Article where
  title : String
  description : String
  content : String
  url : String
  image : String
  publishedAt : Int
  source : NewsSource
deriving DecidableEq, Repr

namespace Config

/-- `config.cache.ttl = 5 * 60 * 1000` (src/config/index.js:15). -/
def cacheTtl : Int := 5 * 60 * 1000

end Config

/-- A stored cache entry: `{data, expiresAt, cachedAt}` (src/utils/cache.js:55-59).
`cachedAt` is stored as `new Date().toISOString()`; we keep the timestamp. -/
structure CacheEntry where
  data : List Article
  expiresAt : Int
  cachedAt : Int
deriving DecidableEq, Repr

/-- The JS `Map` held in `this.cache`, as an association list, together with
the instance TTL `this.ttl` (src/utils/cache.js:8-12). -/
structure Cache where
  store : List (String × CacheEntry)
  ttl : Int
deriving DecidableEq, Repr

/-- `Map.prototype.delete`: remove the binding for `k`. -/
def mapDelete (m : List (String × CacheEntry)) (k : String) :
    List (String × CacheEntry) :=
  m.filter (fun p => !(p.1 == k))

/-- `Map.prototype.set`: overwrite any binding for `k` with `v`. -/
def mapSet (m : List (String × CacheEntry)) (k : String) (v : CacheEntry) :
    List (String × CacheEntry) :=
  mapDelete m k ++ [(k, v)]

/-- The default `Array.prototype.sort` comparison of JavaScript on strings is
lexicographic on code units, i.e. lexicographic comparison of the character
lists; this is `≤` on `String` (cf. `String.le_iff_toList_le`), stated on
`String.data` directly. -/
def jsStringLE (a b : String) : Prop :=
  a.data ≤ b.data

instance jsStringLE.decidableRel : DecidableRel jsStringLE :=
  fun a b => inferInstanceAs (Decidable (a.data ≤ b.data))

instance jsStringLE.isTotal : IsTotal String jsStringLE :=
  ⟨fun a b => le_total a.data b.data⟩

instance jsStringLE.isTrans : IsTrans String jsStringLE :=
  ⟨fun _ _ _ hab hbc => le_trans hab hbc⟩

instance jsStringLE.isAntisymm : IsAntisymm String jsStringLE :=
  ⟨fun _ _ hab hba => String.toList_inj.mp (le_antisymm hab hba)⟩

/-- `Array.prototype.sort` with the default string comparator (the in-place
mutation is handled at the call sites). -/
def sortJS (l : List String) : List String :=
  List.insertionSort jsStringLE l

namespace Cache

/-- `generateKey` (src/utils/cache.js:19-24): empty or absent preferences give
the fixed sentinel `news:general`; otherwise the preferences are sorted and
joined with `,` under the `news:` namespace tag. Returns the key. -/
def generateKey (preferences : List String) : String :=
  if preferences.length = 0 then "news:general"
  else "news:" ++ String.intercalate "," (sortJS preferences)

/-- The state of the caller-supplied `preferences` array after `generateKey` returns:
`preferences.sort()` sorts the array **in place**, so a non-empty argument is
left sorted; the empty case returns before sorting. -/
def generateKeyPost (preferences : List String) : List String :=
  if preferences.length = 0 then preferences else sortJS preferences

/-- `get` (src/utils/cache.js:31-45): absent key returns `null`; an entry with
`Date.now() > item.expiresAt` is deleted and `null` returned (lazy eviction);
otherwise the stored data is returned. Returns the result together with the
post-call cache state. -/
def get (c : Cache) (now : Int) (key : String) :
    Option (List Article) × Cache :=
  match c.store.lookup key with
  | none => (none, c)
  | some item =>
    if item.expiresAt < now then (none, { c with store := mapDelete c.store key })
    else (some item.data, c)

/-- `set` (src/utils/cache.js:53-60): `const ttl = customTtl || this.ttl`
selects the TTL by JS truthiness, so an absent **or zero** `customTtl` falls
back to the instance default; stores `{data, expiresAt: now+ttl, cachedAt}`,
overwriting unconditionally. -/
def set (c : Cache) (now : Int) (key : String) (data : List Article)
    (customTtl : Option Int) : Cache :=
  let ttl := match customTtl with
    | none => c.ttl
    | some t => if t = 0 then c.ttl else t
  { c with store := mapSet c.store key { data := data, expiresAt := now + ttl, cachedAt := now } }

end Cache

/-- The module-level singleton `module.exports = new Cache()`
(src/utils/cache.js:104): empty map, default TTL from config. -/
def defaultCache : Cache :=
  { store := [], ttl := Config.cacheTtl }

/-- Provider credentials: `config.newsApi.gnewsApiKey` and
`config.newsApi.newsApiKey` (src/config/index.js:9,11); each is an environment
variable that may be absent. -/
structure ProviderConfig where
  gnewsApiKey : Option String
  newsApiKey : Option String

/-- The network environment: for each provider, the outcome of its single
bounded-timeout HTTP call as a function of the query string it sends.
`Except.error ()` is a network/HTTP failure (the source logs and re-throws);
`Except.ok articles` is a 2xx response already pushed through the
field-by-field mapping into the canonical `Article` schema
(`[]` when `response.data.articles` is absent). -/
structure Network where
  gnewsCall : String → Except Unit (List Article)
  newsapiCall : String → Except Unit (List Article)

/-- Query construction shared by both providers
(src/services/newsService.js:25-27,74-76): non-empty preferences are joined
with the separator `" OR "`; an empty preference list becomes the generic term `general`. -/
def buildQuery (preferences : List String) : String :=
  if preferences.length > 0 then String.intercalate " OR " preferences
  else "general"

/-- `fetchFromGNews` (src/services/newsService.js:15-59): with no API key
configured it declines immediately (`return null`) before any network I/O;
otherwise it issues one call with the built query and either returns the
mapped article list or propagates the error. -/
def fetchFromGNews (cfg : ProviderConfig) (net : Network)
    (preferences : List String) : Except Unit (Option (List Article)) :=
  match cfg.gnewsApiKey with
  | none => Except.ok none
  | some _ =>
    match net.gnewsCall (buildQuery preferences) with
    | Except.ok articles => Except.ok (some articles)
    | Except.error e => Except.error e

/-- `fetchFromNewsAPI` (src/services/newsService.js:66-111): same shape as
`fetchFromGNews` with the credential and endpoint of the secondary provider. -/
def fetchFromNewsAPI (cfg : ProviderConfig) (net : Network)
    (preferences : List String) : Except Unit (Option (List Article)) :=
  match cfg.newsApiKey with
  | none => Except.ok none
  | some _ =>
    match net.newsapiCall (buildQuery preferences) with
    | Except.ok articles => Except.ok (some articles)
    | Except.error e => Except.error e

/-- `topic.charAt(0).toUpperCase() + topic.slice(1)`
(src/services/newsService.js:164). -/
def capitalizeFirst (s : String) : String :=
  match s.data with
  | [] => ""
  | c :: cs => String.mk (c.toUpper :: cs)

/-- The three base mock articles, all built from the lead topic `topics[0]`
(src/services/newsService.js:121-158). `now` is `Date.now()` at the call. -/
def mockBaseArticles (t0 : String) (now : Int) : List Article :=
  [ { title := "Latest updates in " ++ t0 ++ " industry",
      description := "Breaking news and developments in the " ++ t0 ++
        " sector that you need to know about today.",
      content := "This is a comprehensive article about the latest trends and updates in " ++
        t0 ++ ". Stay informed with our in-depth coverage...",
      url := "https://example.com/news/" ++ t0 ++ "/article-1",
      image := "https://picsum.photos/seed/" ++ t0 ++ "/800/400",
      publishedAt := now,
      source := { name := "Mock News Source", url := some "https://example.com" } },
    { title := "Top " ++ t0 ++ " stories of the week",
      description := "A roundup of the most important " ++ t0 ++
        " news from this week.",
      content := "Here are the top stories you might have missed in " ++ t0 ++
        " this week...",
      url := "https://example.com/news/" ++ t0 ++ "/article-2",
      image := "https://picsum.photos/seed/" ++ t0 ++ "2/800/400",
      publishedAt := now - 86400000,
      source := { name := "Weekly Digest", url := some "https://example.com" } },
    { title := "Expert analysis on " ++ t0 ++ " trends",
      description := "Industry experts share their insights on where " ++ t0 ++
        " is heading.",
      content := "Our panel of experts discusses the future of " ++ t0 ++
        " and what to expect in the coming months...",
      url := "https://example.com/news/" ++ t0 ++ "/article-3",
      image := "https://picsum.photos/seed/" ++ t0 ++ "3/800/400",
      publishedAt := now - 172800000,
      source := { name := "Expert Insights", url := some "https://example.com" } } ]

/-- One extra mock article per preference term beyond the first
(src/services/newsService.js:162-175). `rand` is the value of
`Math.random() * 259200000` drawn for this article. -/
def mockExtraArticle (topic : String) (now : Int) (rand : Int) : Article :=
  { title := capitalizeFirst topic ++ " news update",
    description := "The latest news and updates about " ++ topic ++ ".",
    content := "Detailed coverage of " ++ topic ++ " news and developments...",
    url := "https://example.com/news/" ++ topic ++ "/latest",
    image := "https://picsum.photos/seed/" ++ topic ++ "/800/400",
    publishedAt := now - rand,
    source := { name := "Topic News", url := some "https://example.com" } }

/-- `generateMockNews` (src/services/newsService.js:118-179): empty
preferences are replaced by the list holding only `general`; three base articles from the lead
topic, plus one extra article per remaining topic. `now` is `Date.now()` at
the call; `rands i` is the `Math.random() * 259200000` draw for the `i`-th
extra article. -/
def generateMockNews (preferences : List String) (now : Int)
    (rands : Nat → Int) : List Article :=
  let topics := if preferences.length > 0 then preferences else ["general"]
  mockBaseArticles (topics.headD "") now ++
    (topics.drop 1).enum.map (fun p => mockExtraArticle p.2 now (rands p.1))

/-- `news && news.length > 0`: a provider result is usable only when it is a
non-null, non-empty array. -/
def isUsable : Option (List Article) → Bool
  | some l => decide (0 < l.length)
  | none => false

/-- The `{news, cached, source}` object `getNews` resolves with
(src/services/newsService.js:194-198,236-240). -/
structure NewsResult where
  news : List Article
  cached : Bool
  source : String
deriving DecidableEq, Repr

/-- The provider cascade of `getNews` (src/services/newsService.js:201-230):
`news` starts `null` and `source` starts as the string `mock`; GNews is tried first, a
thrown error being caught with `news` left untouched; NewsAPI is tried only
when `!news || news.length === 0`; mock synthesis is the final fallback under
the same test. The identifier of each provider is recorded only when its result is
usable. Returns the final `(news, source)` pair. -/
def fallbackFetch (cfg : ProviderConfig) (net : Network) (now : Int)
    (rands : Nat → Int) (prefs : List String) : List Article × String :=
  let newsAfterGNews : Option (List Article) :=
    match fetchFromGNews cfg net prefs with
    | Except.ok r => r
    | Except.error _ => none
  let sourceAfterGNews : String :=
    if isUsable newsAfterGNews then "gnews" else "mock"
  let step2 : Option (List Article) × String :=
    if isUsable newsAfterGNews then (newsAfterGNews, sourceAfterGNews)
    else
      match fetchFromNewsAPI cfg net prefs with
      | Except.ok r => (r, if isUsable r then "newsapi" else sourceAfterGNews)
      | Except.error _ => (newsAfterGNews, sourceAfterGNews)
  if isUsable step2.1 then (step2.1.getD [], step2.2)
  else (generateMockNews prefs now rands, "mock")

/-- `getNews` (src/services/newsService.js:187-241). The call receives the
current time and the random stream explicitly and threads the singleton cache
as state. Note the aliasing in the source: `cache.generateKey(preferences)`
sorts the caller-supplied array in place, so every later use of `preferences` in the
call (provider queries, mock synthesis) sees the sorted array, modelled by
`prefs := Cache.generateKeyPost preferences`. -/
def getNews (cfg : ProviderConfig) (net : Network) (now : Int)
    (rands : Nat → Int) (preferences : List String) (c : Cache) :
    NewsResult × Cache :=
  let cacheKey := Cache.generateKey preferences
  let prefs := Cache.generateKeyPost preferences
  match Cache.get c now cacheKey with
  | (some cachedNews, c1) =>
    ({ news := cachedNews, cached := true, source := "cache" }, c1)
  | (none, c1) =>
    let result := fallbackFetch cfg net now rands prefs
    let c2 := Cache.set c1 now cacheKey result.1 none
    ({ news := result.1, cached := false, source := result.2 }, c2)

/-- `searchNews` (src/services/newsService.js:249-253): builds the fresh array
`[...(preferences || []), query]` and delegates to `getNews`. -/
def searchNews (cfg : ProviderConfig) (net : Network) (now : Int)
    (rands : Nat → Int) (query : String) (preferences : List String)
    (c : Cache) : NewsResult × Cache :=
  let searchTerms := preferences ++ [query]
  getNews cfg net now rands searchTerms c

/-- The three outcomes after which the pipeline moves past GNews to the next
source: unconfigured (declined with `null`), a thrown error (failed), or a
successful call whose mapped article list is empty. -/
def gnewsYieldsNothing (cfg : ProviderConfig) (net : Network)
    (prefs : List String) : Prop :=
  cfg.gnewsApiKey = none ∨
    net.gnewsCall (buildQuery prefs) = Except.error () ∨
    net.gnewsCall (buildQuery prefs) = Except.ok []

/-- The three outcomes after which the pipeline moves past NewsAPI to mock
synthesis. -/
def newsapiYieldsNothing (cfg : ProviderConfig) (net : Network)
    (prefs : List String) : Prop :=
  cfg.newsApiKey = none ∨
    net.newsapiCall (buildQuery prefs) = Except.error () ∨
    net.newsapiCall (buildQuery prefs) = Except.ok []

/-- Every field of an article except the `publishedAt` timestamp. -/
def articleStatic (a : Article) :
    String × String × String × String × String × NewsSource :=
  (a.title, a.description, a.content, a.url, a.image, a.source)

/-- Whether the first list is an initial segment of the second. -/
def leadsList : List Char → List Char → Bool
  | [], _ => true
  | _ :: _, [] => false
  | a :: as, b :: bs => a == b && leadsList as bs

/-- Whether `pat` occurs as a contiguous sublist of the second argument. -/
def subListOccurs (pat : List Char) : List Char → Bool
  | [] => pat.isEmpty
  | c :: rest => leadsList pat (c :: rest) || subListOccurs pat rest

/-- Whether `pat` occurs as a contiguous substring of `s` (on code points). -/
def containsSubstr (s pat : String) : Bool :=
  subListOccurs pat.data s.data

/-- A fixed article, used to instantiate provider responses in concrete
evaluations. -/
def sampleArticle : Article :=
  { title := "t", description := "d", content := "c", url := "u", image := "i",
    publishedAt := 0, source := { name := "s", url := none } }

/-! ## Helper lemmas -/

/-- After deleting key `k`, looking `k` up yields nothing. -/
theorem lookup_mapDelete_self (m : List (String × CacheEntry)) (k : String) :
    (mapDelete m k).lookup k = none := by
  induction m with
  | nil => rfl
  | cons p m ih =>
    rcases p with ⟨a, b⟩
    simp only [mapDelete] at ih ⊢
    rcases h : a == k with _ | _
    · have h2 : (k == a) = false := by
        rw [beq_eq_false_iff_ne] at h ⊢
        exact Ne.symm h
      simp [List.filter_cons, h, List.lookup, h2, ih]
    · simp [List.filter_cons, h, ih]

/-- After `mapSet m k v`, looking `k` up yields exactly `v`. -/
theorem lookup_mapSet_self (m : List (String × CacheEntry)) (k : String)
    (v : CacheEntry) : (mapSet m k v).lookup k = some v := by
  have base : ∀ md : List (String × CacheEntry), md.lookup k = none →
      (md ++ [(k, v)]).lookup k = some v := by
    intro md
    induction md with
    | nil => intro _; simp [List.lookup]
    | cons p md ih =>
      rcases p with ⟨a, b⟩
      intro h
      rcases h2 : k == a with _ | _
      · simp only [List.cons_append, List.lookup, h2] at h ⊢
        exact ih h
      · simp only [List.lookup, h2] at h
        exact Option.noConfusion h
  exact base _ (lookup_mapDelete_self m k)

/-- `Cache.get` never changes the instance TTL. -/
theorem cacheGet_ttl (c : Cache) (now : Int) (key : String) :
    ((Cache.get c now key).2).ttl = c.ttl := by
  unfold Cache.get
  split
  · rfl
  · split <;> rfl

/-- Reading a key just written with the default TTL, at any time not past the
stored expiry, returns the stored data and leaves the cache unchanged. -/
theorem cacheGet_after_set (c : Cache) (now now2 : Int) (key : String)
    (data : List Article) (h : ¬ (now + c.ttl < now2)) :
    Cache.get (Cache.set c now key data none) now2 key =
      (some data, Cache.set c now key data none) := by
  unfold Cache.get Cache.set
  simp [lookup_mapSet_self, h]

/-- In-place sorting preserves the length of the preference array. -/
theorem generateKeyPost_length (prefs : List String) :
    (Cache.generateKeyPost prefs).length = prefs.length := by
  unfold Cache.generateKeyPost sortJS
  split
  · rfl
  · exact (List.perm_insertionSort _ _).length_eq

/-- The synthetic collection always holds `3 + (n - 1)` articles (in truncated
natural subtraction), i.e. `3 + max(0, n-1)` for a preference count `n`. -/
theorem generateMockNews_length (prefs : List String) (now : Int)
    (rands : Nat → Int) :
    (generateMockNews prefs now rands).length = 3 + (prefs.length - 1) := by
  cases prefs with
  | nil => rfl
  | cons a l =>
    simp [generateMockNews, mockBaseArticles, List.enum_length]
    omega

/-- A configured GNews whose call maps to a non-empty article list wins the
cascade with identifier `gnews`, whatever NewsAPI would do. -/
theorem fallbackFetch_gnews_usable (cfg : ProviderConfig) (net : Network)
    (now : Int) (rands : Nat → Int) (prefs : List String) (k : String)
    (arts : List Article) (hkey : cfg.gnewsApiKey = some k)
    (hcall : net.gnewsCall (buildQuery prefs) = Except.ok arts)
    (hne : arts ≠ []) :
    fallbackFetch cfg net now rands prefs = (arts, "gnews") := by
  have hu : isUsable (some arts) = true := by
    simp [isUsable, List.length_pos, hne]
  simp [fallbackFetch, fetchFromGNews, hkey, hcall, hu]

/-- When GNews declines, fails or returns empty, a configured NewsAPI whose
call maps to a non-empty list wins the cascade with identifier `newsapi`. -/
theorem fallbackFetch_newsapi_usable (cfg : ProviderConfig) (net : Network)
    (now : Int) (rands : Nat → Int) (prefs : List String) (k : String)
    (arts : List Article) (hg : gnewsYieldsNothing cfg net prefs)
    (hkey : cfg.newsApiKey = some k)
    (hcall : net.newsapiCall (buildQuery prefs) = Except.ok arts)
    (hne : arts ≠ []) :
    fallbackFetch cfg net now rands prefs = (arts, "newsapi") := by
  have hu : isUsable (some arts) = true := by
    simp [isUsable, List.length_pos, hne]
  rcases hg with h | h | h <;>
    cases hk : cfg.gnewsApiKey <;>
      simp_all [fallbackFetch, fetchFromGNews, fetchFromNewsAPI, isUsable, hu]

/-- When both providers decline, fail or return empty, the cascade falls back
to mock synthesis with identifier `mock`. -/
theorem fallbackFetch_exhausted (cfg : ProviderConfig) (net : Network)
    (now : Int) (rands : Nat → Int) (prefs : List String)
    (hg : gnewsYieldsNothing cfg net prefs)
    (hn : newsapiYieldsNothing cfg net prefs) :
    fallbackFetch cfg net now rands prefs =
      (generateMockNews prefs now rands, "mock") := by
  rcases hg with h | h | h <;> rcases hn with h2 | h2 | h2 <;>
    cases hk : cfg.gnewsApiKey <;> cases hk2 : cfg.newsApiKey <;>
      simp_all [fallbackFetch, fetchFromGNews, fetchFromNewsAPI, isUsable]

/-- On a cache miss, `getNews` runs the cascade on the (in-place sorted)
preference array, caches the outcome under the derived key, and reports it as
non-cached. -/
theorem getNews_miss_eq (cfg : ProviderConfig) (net : Network) (now : Int)
    (rands : Nat → Int) (preferences : List String) (c : Cache)
    (hmiss : (Cache.get c now (Cache.generateKey preferences)).1 = none) :
    getNews cfg net now rands preferences c =
      ({ news := (fallbackFetch cfg net now rands
            (Cache.generateKeyPost preferences)).1,
         cached := false,
         source := (fallbackFetch cfg net now rands
            (Cache.generateKeyPost preferences)).2 },
       Cache.set (Cache.get c now (Cache.generateKey preferences)).2 now
         (Cache.generateKey preferences)
         (fallbackFetch cfg net now rands
            (Cache.generateKeyPost preferences)).1 none) := by
  rcases h : Cache.get c now (Cache.generateKey preferences) with ⟨o, c1⟩
  rw [h] at hmiss
  simp only at hmiss
  subst hmiss
  simp only [getNews, h]

/-- On a cache hit, `getNews` returns the stored data as cached without
consulting any provider. -/
theorem getNews_hit_eq (cfg : ProviderConfig) (net : Network) (now : Int)
    (rands : Nat → Int) (preferences : List String) (c : Cache)
    (data : List Article) (c1 : Cache)
    (hhit : Cache.get c now (Cache.generateKey preferences) =
      (some data, c1)) :
    getNews cfg net now rands preferences c =
      ({ news := data, cached := true, source := "cache" }, c1) := by
  simp only [getNews, hhit]

/-! ## Claim theorems -/

/-- C1: on a cache miss, if GNews is configured and its fetch succeeds with at
least one article, `getNews` returns exactly those articles with provenance
`gnews`, for every configuration and behavior of NewsAPI (both are universally
quantified); and when GNews declines (unconfigured), fails, or returns an
empty collection, the pipeline advances in the fixed order GNews, NewsAPI,
synthesis: a usable NewsAPI result is returned with provenance `newsapi`, and
if NewsAPI also yields nothing the synthetic result is returned with
provenance `mock`. -/
theorem getNews_fallback_priority (cfg : ProviderConfig) (net : Network)
    (now : Int) (rands : Nat → Int) (preferences : List String) (c : Cache)
    (hmiss : (Cache.get c now (Cache.generateKey preferences)).1 = none) :
    (∀ k arts, cfg.gnewsApiKey = some k →
      net.gnewsCall (buildQuery (Cache.generateKeyPost preferences)) =
        Except.ok arts →
      arts ≠ [] →
      (getNews cfg net now rands preferences c).1 =
        { news := arts, cached := false, source := "gnews" }) ∧
    (∀ k arts, gnewsYieldsNothing cfg net (Cache.generateKeyPost preferences) →
      cfg.newsApiKey = some k →
      net.newsapiCall (buildQuery (Cache.generateKeyPost preferences)) =
        Except.ok arts →
      arts ≠ [] →
      (getNews cfg net now rands preferences c).1 =
        { news := arts, cached := false, source := "newsapi" }) ∧
    (gnewsYieldsNothing cfg net (Cache.generateKeyPost preferences) →
      newsapiYieldsNothing cfg net (Cache.generateKeyPost preferences) →
      (getNews cfg net now rands preferences c).1 =
        { news := generateMockNews (Cache.generateKeyPost preferences) now
            rands,
          cached := false, source := "mock" }) := by
  rw [getNews_miss_eq cfg net now rands preferences c hmiss]
  refine ⟨?_, ?_, ?_⟩
  · intro k arts hk hc hne
    rw [fallbackFetch_gnews_usable cfg net now rands _ k arts hk hc hne]
  · intro k arts hg hk hc hne
    rw [fallbackFetch_newsapi_usable cfg net now rands _ k arts hg hk hc hne]
  · intro hg hn
    rw [fallbackFetch_exhausted cfg net now rands _ hg hn]

/-- C1 witness: with GNews configured and answering one article while NewsAPI
is configured but failing, the result is the GNews article with provenance
`gnews`. -/
theorem getNews_fallback_priority_witness :
    (getNews ⟨some "g", some "n"⟩
        ⟨fun _ => Except.ok [sampleArticle], fun _ => Except.error ()⟩
        0 (fun _ => 0) ["tech"] defaultCache).1 =
      { news := [sampleArticle], cached := false, source := "gnews" } :=
  (getNews_fallback_priority ⟨some "g", some "n"⟩
      ⟨fun _ => Except.ok [sampleArticle], fun _ => Except.error ()⟩
      0 (fun _ => 0) ["tech"] defaultCache rfl).1
    "g" [sampleArticle] rfl rfl (by decide)

/-- C2: on a cache miss with every provider declining, failing or returning
empty, `getNews` returns the synthetic collection with provenance `mock`
(the `synthetic` outcome), of size exactly `3 + (n - 1)` in truncated natural
subtraction — that is, `3 + max(0, n-1)` for a preference count `n` — and
that collection is never empty, so the exhausted-fallback case never yields
an error or an empty collection. -/
theorem getNews_exhausted_synthetic (cfg : ProviderConfig) (net : Network)
    (now : Int) (rands : Nat → Int) (preferences : List String) (c : Cache)
    (hmiss : (Cache.get c now (Cache.generateKey preferences)).1 = none)
    (hg : gnewsYieldsNothing cfg net (Cache.generateKeyPost preferences))
    (hn : newsapiYieldsNothing cfg net (Cache.generateKeyPost preferences)) :
    (getNews cfg net now rands preferences c).1.source = "mock" ∧
    (getNews cfg net now rands preferences c).1.news =
      generateMockNews (Cache.generateKeyPost preferences) now rands ∧
    (getNews cfg net now rands preferences c).1.news.length =
      3 + (preferences.length - 1) ∧
    (getNews cfg net now rands preferences c).1.news ≠ [] := by
  rw [getNews_miss_eq cfg net now rands preferences c hmiss,
      fallbackFetch_exhausted cfg net now rands _ hg hn]
  have hlen : (generateMockNews (Cache.generateKeyPost preferences) now
      rands).length = 3 + (preferences.length - 1) := by
    rw [generateMockNews_length, generateKeyPost_length]
  dsimp only
  refine ⟨rfl, rfl, hlen, ?_⟩
  intro he
  rw [he] at hlen
  simp only [List.length_nil] at hlen
  omega

/-- C2 witness: two preferences and no configured provider give four synthetic
articles with provenance `mock`. -/
theorem getNews_exhausted_synthetic_witness :
    (getNews ⟨none, none⟩ ⟨fun _ => Except.ok [], fun _ => Except.ok []⟩
        0 (fun _ => 0) ["a", "b"] defaultCache).1.source = "mock" ∧
    (getNews ⟨none, none⟩ ⟨fun _ => Except.ok [], fun _ => Except.ok []⟩
        0 (fun _ => 0) ["a", "b"] defaultCache).1.news =
      generateMockNews (Cache.generateKeyPost ["a", "b"]) 0 (fun _ => 0) ∧
    (getNews ⟨none, none⟩ ⟨fun _ => Except.ok [], fun _ => Except.ok []⟩
        0 (fun _ => 0) ["a", "b"] defaultCache).1.news.length =
      3 + (["a", "b"].length - 1) ∧
    (getNews ⟨none, none⟩ ⟨fun _ => Except.ok [], fun _ => Except.ok []⟩
        0 (fun _ => 0) ["a", "b"] defaultCache).1.news ≠ [] :=
  getNews_exhausted_synthetic ⟨none, none⟩
    ⟨fun _ => Except.ok [], fun _ => Except.ok []⟩ 0 (fun _ => 0)
    ["a", "b"] defaultCache rfl (Or.inl rfl) (Or.inl rfl)

/-- C3: key derivation is order-independent — any two preference lists that
are permutations of each other (same multiset) derive the same key — and the
empty preference list derives the fixed sentinel `news:general`. -/
theorem generateKey_orderIndependent :
    (∀ l1 l2 : List String, l1.Perm l2 →
      Cache.generateKey l1 = Cache.generateKey l2) ∧
    Cache.generateKey [] = "news:general" := by
  refine ⟨?_, rfl⟩
  intro l1 l2 h
  unfold Cache.generateKey
  have hlen := h.length_eq
  by_cases h1 : l1.length = 0
  · have h2 : l2.length = 0 := by omega
    simp [h1, h2]
  · have h2 : ¬ l2.length = 0 := by omega
    simp only [h1, h2, if_false]
    have hs : sortJS l1 = sortJS l2 := by
      unfold sortJS
      exact List.eq_of_perm_of_sorted
        (((List.perm_insertionSort _ l1).trans h).trans
          (List.perm_insertionSort _ l2).symm)
        (List.sorted_insertionSort _ l1) (List.sorted_insertionSort _ l2)
    rw [hs]

/-- C3 witness: the concrete instance from the spec,
`generateKey(["b","a"]) == generateKey(["a","b"])`, plus the sentinel. -/
theorem generateKey_orderIndependent_witness :
    Cache.generateKey ["b", "a"] = Cache.generateKey ["a", "b"] ∧
    Cache.generateKey [] = "news:general" :=
  ⟨generateKey_orderIndependent.1 ["b", "a"] ["a", "b"]
      (List.Perm.swap "a" "b" []),
   generateKey_orderIndependent.2⟩

/-- C4: cache write-through. On a miss, `getNews` reports `cached: false` and
stores its resulting articles under the derived key with expiry
`now + default TTL` before returning; a second call with any preference list
deriving the same key, at any time within the TTL, returns the identical
article content with `cached: true` and provenance `cache`, leaves the cache
unchanged, and does so for every provider configuration and network behavior
of the second call (so no provider is consulted). -/
theorem getNews_write_through (cfg cfg2 : ProviderConfig) (net net2 : Network)
    (now now2 : Int) (rands rands2 : Nat → Int)
    (preferences preferences2 : List String) (c : Cache)
    (hmiss : (Cache.get c now (Cache.generateKey preferences)).1 = none)
    (hsame : Cache.generateKey preferences2 = Cache.generateKey preferences)
    (hwithin : now2 ≤ now + c.ttl) :
    (getNews cfg net now rands preferences c).1.cached = false ∧
    ((getNews cfg net now rands preferences c).2).store.lookup
        (Cache.generateKey preferences) =
      some ⟨(getNews cfg net now rands preferences c).1.news,
        now + c.ttl, now⟩ ∧
    (getNews cfg2 net2 now2 rands2 preferences2
        (getNews cfg net now rands preferences c).2).1 =
      { news := (getNews cfg net now rands preferences c).1.news,
        cached := true, source := "cache" } ∧
    (getNews cfg2 net2 now2 rands2 preferences2
        (getNews cfg net now rands preferences c).2).2 =
      (getNews cfg net now rands preferences c).2 := by
  have httl : ((Cache.get c now (Cache.generateKey preferences)).2).ttl =
      c.ttl := cacheGet_ttl c now (Cache.generateKey preferences)
  rw [getNews_miss_eq cfg net now rands preferences c hmiss]
  have hhit := cacheGet_after_set
    (Cache.get c now (Cache.generateKey preferences)).2 now now2
    (Cache.generateKey preferences)
    (fallbackFetch cfg net now rands (Cache.generateKeyPost preferences)).1
    (by rw [httl]; exact not_lt.mpr hwithin)
  have hhit2 : Cache.get
      (Cache.set (Cache.get c now (Cache.generateKey preferences)).2 now
        (Cache.generateKey preferences)
        (fallbackFetch cfg net now rands (Cache.generateKeyPost preferences)).1
        none) now2 (Cache.generateKey preferences2) =
      (some (fallbackFetch cfg net now rands
          (Cache.generateKeyPost preferences)).1,
        Cache.set (Cache.get c now (Cache.generateKey preferences)).2 now
          (Cache.generateKey preferences)
          (fallbackFetch cfg net now rands
            (Cache.generateKeyPost preferences)).1 none) := by
    rw [hsame]
    exact hhit
  refine ⟨rfl, ?_, ?_, ?_⟩
  · simp only [Cache.set, lookup_mapSet_self, httl]
  · rw [getNews_hit_eq cfg2 net2 now2 rands2 preferences2 _ _ _ hhit2]
  · rw [getNews_hit_eq cfg2 net2 now2 rands2 preferences2 _ _ _ hhit2]

/-- C4 witness: first call with `["tech"]` on the empty cache is not cached
and stores its result; an immediate repeat call is served from cache with
identical content and an unchanged cache. -/
theorem getNews_write_through_witness :
    (getNews ⟨none, none⟩ ⟨fun _ => Except.ok [], fun _ => Except.ok []⟩ 0
        (fun _ => 0) ["tech"] defaultCache).1.cached = false ∧
    ((getNews ⟨none, none⟩ ⟨fun _ => Except.ok [], fun _ => Except.ok []⟩ 0
        (fun _ => 0) ["tech"] defaultCache).2).store.lookup
        (Cache.generateKey ["tech"]) =
      some ⟨(getNews ⟨none, none⟩
          ⟨fun _ => Except.ok [], fun _ => Except.ok []⟩ 0 (fun _ => 0)
          ["tech"] defaultCache).1.news, 0 + defaultCache.ttl, 0⟩ ∧
    (getNews ⟨none, none⟩ ⟨fun _ => Except.ok [], fun _ => Except.ok []⟩ 1
        (fun _ => 0) ["tech"]
        (getNews ⟨none, none⟩ ⟨fun _ => Except.ok [], fun _ => Except.ok []⟩ 0
          (fun _ => 0) ["tech"] defaultCache).2).1 =
      { news := (getNews ⟨none, none⟩
          ⟨fun _ => Except.ok [], fun _ => Except.ok []⟩ 0 (fun _ => 0)
          ["tech"] defaultCache).1.news,
        cached := true, source := "cache" } ∧
    (getNews ⟨none, none⟩ ⟨fun _ => Except.ok [], fun _ => Except.ok []⟩ 1
        (fun _ => 0) ["tech"]
        (getNews ⟨none, none⟩ ⟨fun _ => Except.ok [], fun _ => Except.ok []⟩ 0
          (fun _ => 0) ["tech"] defaultCache).2).2 =
      (getNews ⟨none, none⟩ ⟨fun _ => Except.ok [], fun _ => Except.ok []⟩ 0
        (fun _ => 0) ["tech"] defaultCache).2 :=
  getNews_write_through ⟨none, none⟩ ⟨none, none⟩
    ⟨fun _ => Except.ok [], fun _ => Except.ok []⟩
    ⟨fun _ => Except.ok [], fun _ => Except.ok []⟩
    0 1 (fun _ => 0) (fun _ => 0) ["tech"] ["tech"] defaultCache
    rfl rfl (by decide)

/-- C5: an entry observed expired (`now > expiresAt`) by `get` is never
served: the call returns absent, the entry is already removed from the store
after that first call, and a second `get` on the same key at any later (or
any) time also returns absent. -/
theorem cacheGet_expired_never_served (c : Cache) (key : String)
    (now now2 : Int) (item : CacheEntry)
    (hlook : c.store.lookup key = some item) (hexp : item.expiresAt < now) :
    (Cache.get c now key).1 = none ∧
    ((Cache.get c now key).2).store.lookup key = none ∧
    (Cache.get ((Cache.get c now key).2) now2 key).1 = none := by
  have h1 : Cache.get c now key =
      (none, { c with store := mapDelete c.store key }) := by
    unfold Cache.get
    rw [hlook]
    simp [hexp]
  rw [h1]
  refine ⟨rfl, lookup_mapDelete_self _ _, ?_⟩
  unfold Cache.get
  simp [lookup_mapDelete_self]

/-- C5 witness: a store holding one entry expired at time 0, read at time 1
and again at time 2. -/
theorem cacheGet_expired_never_served_witness :
    (Cache.get ⟨[("k", ⟨[], 0, 0⟩)], 300000⟩ 1 "k").1 = none ∧
    ((Cache.get ⟨[("k", ⟨[], 0, 0⟩)], 300000⟩ 1 "k").2).store.lookup "k" =
      none ∧
    (Cache.get ((Cache.get ⟨[("k", ⟨[], 0, 0⟩)], 300000⟩ 1 "k").2) 2 "k").1 =
      none :=
  cacheGet_expired_never_served ⟨[("k", ⟨[], 0, 0⟩)], 300000⟩ "k" 1 2
    ⟨[], 0, 0⟩ rfl (by decide)

/-- C6: search composition — `searchNews q P` is literally `getNews` on the
preference set extended with the query (`P ++ [q]`), for every environment,
time, random stream and cache state; in particular
`searchNews "ai" ["tech"]` equals `getNews ["tech","ai"]`, so search reuses
the identical fallback and cache machinery. -/
theorem searchNews_composition :
    (∀ (cfg : ProviderConfig) (net : Network) (now : Int) (rands : Nat → Int)
      (query : String) (preferences : List String) (c : Cache),
      searchNews cfg net now rands query preferences c =
        getNews cfg net now rands (preferences ++ [query]) c) ∧
    (∀ (cfg : ProviderConfig) (net : Network) (now : Int) (rands : Nat → Int)
      (c : Cache),
      searchNews cfg net now rands "ai" ["tech"] c =
        getNews cfg net now rands ["tech", "ai"] c) :=
  ⟨fun _ _ _ _ _ _ _ => rfl, fun _ _ _ _ _ => rfl⟩

/-- C7 counterexample: `generateKey` does NOT leave its argument unchanged —
`["b","a"].sort()` happens in place, so after `generateKey(["b","a"])` the
array reads `["a","b"]`, not `["b","a"]`. -/
theorem generateKey_argument_mutated :
    Cache.generateKeyPost ["b", "a"] = ["a", "b"] ∧
    Cache.generateKeyPost ["b", "a"] ≠ ["b", "a"] :=
  ⟨by decide, by decide⟩

/-- C7 amended: `generateKey` reads and writes no cache state (in the
embedding it is a function of the preference list alone), but it is not free
of side effects on its argument: the in-place sort leaves the argument list a
sorted permutation of the original, so the list is unchanged exactly when it
was already sorted (the empty list included). -/
theorem generateKeyPost_sorted_perm :
    ∀ prefs : List String,
      (Cache.generateKeyPost prefs).Perm prefs ∧
      List.Sorted jsStringLE (Cache.generateKeyPost prefs) ∧
      (Cache.generateKeyPost prefs = prefs ↔
        List.Sorted jsStringLE prefs) := by
  intro prefs
  unfold Cache.generateKeyPost sortJS
  by_cases h : prefs.length = 0
  · have he : prefs = [] := List.length_eq_zero.mp h
    subst he
    simp
  · simp only [h, if_false]
    refine ⟨List.perm_insertionSort _ _, List.sorted_insertionSort _ _,
      ?_, ?_⟩
    · intro he
      rw [← he]
      exact List.sorted_insertionSort _ _
    · intro hs
      exact hs.insertionSort_eq

/-- C8 counterexample: the synthetic generator is not reproducible across
calls — called with the same preference set at two different clock readings
(`Date.now()` of 0 versus one day later) it produces collections that differ
(in their `publishedAt` timestamps). -/
theorem generateMockNews_not_reproducible :
    generateMockNews ["a"] 0 (fun _ => 0) ≠
      generateMockNews ["a"] 86400000 (fun _ => 0) := by
  decide

/-- C8 amended: for a fixed preference set, every field except `publishedAt`
— titles, descriptions, content, urls, images and sources — is identical
across any two calls, whatever the clock reading and the `Math.random` draws
of each call; only the `publishedAt` timestamps vary with the call time and,
for the per-extra-preference articles, with the random offset. -/
theorem generateMockNews_static_deterministic :
    ∀ (prefs : List String) (now1 now2 : Int) (rands1 rands2 : Nat → Int),
      (generateMockNews prefs now1 rands1).map articleStatic =
        (generateMockNews prefs now2 rands2).map articleStatic := by
  intro prefs now1 now2 r1 r2
  unfold generateMockNews
  simp only [List.map_append]
  congr 1
  rw [List.map_map, List.map_map]
  apply List.map_congr_left
  rintro ⟨a, b⟩ hmem
  rfl

/-- C9 counterexample: in the spec scenario — preferences
`["sports","finance"]`, no provider configured — it is NOT the case that
every synthetic title references `sports`: the in-place sort during key
derivation reorders the preferences to `["finance","sports"]`, so the lead
topic of the base articles is `finance`. -/
theorem sportsFinance_not_all_titles_sports :
    ((getNews ⟨none, none⟩ ⟨fun _ => Except.ok [], fun _ => Except.ok []⟩ 0
        (fun _ => 0) ["sports", "finance"] defaultCache).1.news.all
      (fun a => containsSubstr a.title "sports")) = false := by
  decide

/-- C9 amended: preferences `["sports","finance"]` with no provider
configured give a synthetic result of exactly 4 articles with provenance
`mock` and `cached = false`; because key derivation sorts the preference
array in place, the lead topic is `finance` (the lexicographically first
element): the three base titles reference `finance` and the one extra
article is titled `Sports news update`; a repeat call within the TTL window
is served from cache (`cached = true`) with identical content. -/
theorem sportsFinance_scenario :
    (getNews ⟨none, none⟩ ⟨fun _ => Except.ok [], fun _ => Except.ok []⟩ 0
        (fun _ => 0) ["sports", "finance"] defaultCache).1.news.map
        Article.title =
      ["Latest updates in finance industry", "Top finance stories of the week",
       "Expert analysis on finance trends", "Sports news update"] ∧
    (getNews ⟨none, none⟩ ⟨fun _ => Except.ok [], fun _ => Except.ok []⟩ 0
        (fun _ => 0) ["sports", "finance"] defaultCache).1.news.length = 4 ∧
    (getNews ⟨none, none⟩ ⟨fun _ => Except.ok [], fun _ => Except.ok []⟩ 0
        (fun _ => 0) ["sports", "finance"] defaultCache).1.source = "mock" ∧
    (getNews ⟨none, none⟩ ⟨fun _ => Except.ok [], fun _ => Except.ok []⟩ 0
        (fun _ => 0) ["sports", "finance"] defaultCache).1.cached = false ∧
    (((getNews ⟨none, none⟩ ⟨fun _ => Except.ok [], fun _ => Except.ok []⟩ 0
        (fun _ => 0) ["sports", "finance"] defaultCache).1.news.take 3).all
      (fun a => containsSubstr a.title "finance")) = true ∧
    (getNews ⟨none, none⟩ ⟨fun _ => Except.ok [], fun _ => Except.ok []⟩ 1
        (fun _ => 0) ["sports", "finance"]
        (getNews ⟨none, none⟩ ⟨fun _ => Except.ok [], fun _ => Except.ok []⟩ 0
          (fun _ => 0) ["sports", "finance"] defaultCache).2).1 =
      { news := (getNews ⟨none, none⟩
          ⟨fun _ => Except.ok [], fun _ => Except.ok []⟩ 0 (fun _ => 0)
          ["sports", "finance"] defaultCache).1.news,
        cached := true, source := "cache" } := by
  refine ⟨by decide, by decide, by decide, by decide, by decide, by decide⟩

/-- C10: a per-entry TTL override of zero is silently ignored — the JS
truthiness test `customTtl || this.ttl` makes `set(key, data, 0)` identical
to `set(key, data)` (expiry `now + default TTL`, not an already-expired
entry), while any non-zero override does take effect. -/
theorem cacheSet_zero_ttl_ignored (c : Cache) (now : Int) (key : String)
    (data : List Article) :
    Cache.set c now key data (some 0) = Cache.set c now key data none ∧
    (Cache.set c now key data (some 0)).store.lookup key =
      some ⟨data, now + c.ttl, now⟩ ∧
    (∀ t : Int, t ≠ 0 →
      (Cache.set c now key data (some t)).store.lookup key =
        some ⟨data, now + t, now⟩) := by
  refine ⟨rfl, ?_, ?_⟩
  · simp [Cache.set, lookup_mapSet_self]
  · intro t ht
    simp [Cache.set, ht, lookup_mapSet_self]

/-- C10 witness: on the default cache, a zero override stores
`expiresAt = 5 + default TTL` exactly as no override does, while an override
of 7 stores `expiresAt = 5 + 7`. -/
theorem cacheSet_zero_ttl_ignored_witness :
    Cache.set defaultCache 5 "k" [] (some 0) =
      Cache.set defaultCache 5 "k" [] none ∧
    (Cache.set defaultCache 5 "k" [] (some 0)).store.lookup "k" =
      some ⟨[], 5 + defaultCache.ttl, 5⟩ ∧
    (Cache.set defaultCache 5 "k" [] (some 7)).store.lookup "k" =
      some ⟨[], 5 + 7, 5⟩ :=
  ⟨(cacheSet_zero_ttl_ignored defaultCache 5 "k" []).1,
   (cacheSet_zero_ttl_ignored defaultCache 5 "k" []).2.1,
   (cacheSet_zero_ttl_ignored defaultCache 5 "k" []).2.2 7 (by decide)⟩
